import Mathlib

/-!
Verification development for the VWAP alert bot (`src/vwap_bot.py`).

The embedding models, directly from the source:
  * the upstream DexScreener response (`TokenData`, `PairData`) and the two
    fetch helpers `fetch_token_pairs` / `fetch_top_pairs`;
  * the alert registry (a Python dict, modelled as an insertion-ordered
    association list) and the `vwap` / `remove_token` commands;
  * the one-minute poll loop `monitor_prices`, one record step at a time,
    with Python exceptions made explicit (`PyErr`);
  * persistence: `save_alerts` (json.dump with `default=str`) and
    `load_alerts` (json.load plus `datetime.fromisoformat`), with Python
    `datetime` modelled structurally (`PyDatetime`) and its `str` /
    `fromisoformat` round-trip modelled character by character.

Real numbers (`priceUsd`, the VWAP level) are modelled as `ℚ`; instants
compared by the poller (`datetime.now(timezone.utc)`) are modelled as `ℚ`
seconds since the epoch, so `timedelta(days=1)` is the constant `86400`.
Presentation-only pair fields (fdv, volume, txns, …) used solely to build
the Discord embed are omitted; the fields the alert logic reads are kept.
-/

/-- One element of the upstream `pairs` array.  `liquidity` is `none` when
the pair object lacks a `liquidity`/`liquidity.usd` key (such pairs are
filtered out by `fetch_top_pairs`); `priceUsd` models
`float(pair['priceUsd'])`. -/
structure PairData where
  baseSymbol : String
  priceUsd : ℚ
  liquidity : Option ℚ
deriving DecidableEq

/-- The JSON document returned by the DexScreener tokens endpoint.
`pairs = none` models a response dict with no `'pairs'` key (or an empty
dict, which is falsy in Python — both take the same skip branch in the
source). -/
structure TokenData where
  pairs : Option (List PairData)
deriving DecidableEq

/-- An HTTP response from `requests.get`: either status 200 with a parsed
JSON body, or a non-200 status code. -/
inductive HttpResp where
  | ok (body : TokenData)
  | err (statusCode : Nat)
deriving DecidableEq

/-- `fetch_token_pairs` (src lines 227-236): returns the parsed JSON on
status 200, otherwise logs and returns `None`. -/
def fetch_token_pairs (resp : HttpResp) : Option TokenData :=
  match resp with
  | .ok body => some body
  | .err _ => none

/-- Sort key used by `fetch_top_pairs`: `pair['liquidity']['usd']`.  Only
applied to pairs that passed the liquidity filter, where `getD` is exact. -/
def liqKey (p : PairData) : ℚ := p.liquidity.getD 0

/-- Stable descending insertion: place `x` before the first element whose
key is `≤` its own, so that among equal keys earlier input stays first —
the behaviour of Python `sorted(..., key=..., reverse=True)`. -/
def insertDesc (x : PairData) : List PairData → List PairData
  | [] => [x]
  | y :: ys => if liqKey y ≤ liqKey x then x :: y :: ys else y :: insertDesc x ys

/-- Stable sort by USD liquidity, descending (Python stable `sorted` with
`reverse=True`). -/
def sortDesc : List PairData → List PairData
  | [] => []
  | x :: xs => insertDesc x (sortDesc xs)

/-- `fetch_top_pairs` (src lines 200-217): on status 200 take the `pairs`
array (default `[]` when absent), keep the pairs that carry liquidity
data, sort by USD liquidity descending, and return the first `top_n`;
on non-200 return `None`. -/
def fetch_top_pairs (resp : HttpResp) (top_n : Nat) : Option (List PairData) :=
  match resp with
  | .ok body => some ((sortDesc ((body.pairs.getD []).filter fun p => p.liquidity.isSome)).take top_n)
  | .err _ => none

/-- One alert record — the dict stored in `price_alerts` (src lines
93-100).  The timestamp type is a parameter: the poll-loop model uses `ℚ`
(seconds since epoch), the persistence model uses `PyDatetime`, and the
on-disk form uses `String`. -/
structure AlertRecord (τ : Type) where
  vwap_level : ℚ
  ticker : String
  current_price : ℚ
  user : String
  profile_pic : String
  last_alert_time : Option τ
deriving DecidableEq

/-- Python dict assignment `d[k] = v`: overwrite in place when the key is
present (keeping its insertion position), else append. -/
def dictInsert {α : Type} (m : List (String × α)) (k : String) (v : α) : List (String × α) :=
  if m.any (fun kv => kv.1 = k) then
    m.map (fun kv => if kv.1 = k then (k, v) else kv)
  else m ++ [(k, v)]

/-- Python `del d[k]`. -/
def dictRemove {α : Type} (m : List (String × α)) (k : String) : List (String × α) :=
  m.filter (fun kv => kv.1 ≠ k)

/-- Python `str.lower()` on the addresses the bot handles (ASCII hex
contract addresses), character by character. -/
def lowercase (s : String) : String := ⟨s.data.map Char.toLower⟩

/-- Result of a command handler: the in-memory registry, the record map
currently persisted in `alerts.json`, and whether the happy path ran. -/
structure CmdResult where
  registry : List (String × AlertRecord ℚ)
  savedFile : List (String × AlertRecord ℚ)
  ok : Bool
deriving DecidableEq

/-- The `vwap` command (src lines 44-112): lower-case the address, fetch
the five top pairs, and if any exists register/overwrite the alert record
(with `last_alert_time = None`) and persist with `save_alerts`; otherwise
reply with an error and change nothing.  There is no check on
`vwap_level`.  `resp` is the HTTP response `fetch_top_pairs` sees;
`savedFile` is the record map currently on disk. -/
def vwap (resp : HttpResp) (contract_address : String) (vwap_level : ℚ)
    (userName avatarUrl : String)
    (registry savedFile : List (String × AlertRecord ℚ)) : CmdResult :=
  let addr := lowercase contract_address
  match fetch_top_pairs resp 5 with
  | some (top_pair :: _) =>
      let r : AlertRecord ℚ :=
        { vwap_level := vwap_level
          ticker := top_pair.baseSymbol
          current_price := top_pair.priceUsd
          user := userName
          profile_pic := avatarUrl
          last_alert_time := none }
      let registry' := dictInsert registry addr r
      { registry := registry', savedFile := registry', ok := true }
  | _ => { registry := registry, savedFile := savedFile, ok := false }

/-- The `remove_token` command (src lines 187-198): delete the record if
present and persist; otherwise report not found and change nothing. -/
def remove_token (contract_address : String)
    (registry savedFile : List (String × AlertRecord ℚ)) : CmdResult :=
  let addr := lowercase contract_address
  if registry.any (fun kv => kv.1 = addr) then
    let registry' := dictRemove registry addr
    { registry := registry', savedFile := registry', ok := true }
  else { registry := registry, savedFile := savedFile, ok := false }

/-- `lower_bound = vwap_level * 0.9` (src line 133). -/
def lower_bound (vwap_level : ℚ) : ℚ := vwap_level * 0.9

/-- `upper_bound = vwap_level * 1.1` (src line 134). -/
def upper_bound (vwap_level : ℚ) : ℚ := vwap_level * 1.1

/-- The band test of src line 141:
`lower_bound <= current_price <= upper_bound`. -/
def inBand (vwap_level current_price : ℚ) : Bool :=
  decide (lower_bound vwap_level ≤ current_price) &&
    decide (current_price ≤ upper_bound vwap_level)

/-- The suppression test of src line 143: `last_alert_time is None or
(datetime.now(timezone.utc) - last_alert_time) >= timedelta(days=1)`,
with instants in seconds, so `timedelta(days=1)` is `86400`. -/
def eligible (now : ℚ) (last_alert_time : Option ℚ) : Bool :=
  match last_alert_time with
  | none => true
  | some t => decide (now - t ≥ 86400)

/-- Python exceptions that the poll loop can raise. -/
inductive PyErr where
  | indexError
  | zeroDivisionError
deriving DecidableEq

/-- Environment of one poll tick: the HTTP response each contract address
gets this cycle, the current instant (`datetime.now(timezone.utc)`, in
seconds), and whether the `price-alerts` channel exists so that
`send_alert_message` actually delivers (src lines 155-171; when the
channel is missing it only prints). -/
structure TickEnv where
  http : String → HttpResp
  now : ℚ
  notifyOk : Bool

/-- Outcome of processing one record inside `monitor_prices`: the record
value after the step (the dict is mutated in place), whether
`save_alerts` ran, whether an alert message was delivered to the channel,
and the exception the step raised, if any. -/
structure StepResult where
  record : AlertRecord ℚ
  saved : Bool
  notified : Bool
  err : Option PyErr
deriving DecidableEq

/-- One iteration of the `for` body of `monitor_prices` (src lines
121-153), for key `addr` with value `rec`:

* failed fetch (`None`) or a body without a `'pairs'` key: the else
  branch prints and moves on;
* `'pairs'` present but empty: `token_data['pairs'][0]` raises
  `IndexError` before any mutation;
* otherwise `alert_data['current_price']` is overwritten first; then
  `percentage_difference` divides by `vwap_level` (raising
  `ZeroDivisionError` when the level is 0, after the price mutation);
  then the band test, then the suppression test; on both passing,
  `last_alert_time` is set to now, `save_alerts` runs, and
  `send_alert_message` is awaited (delivering only if the channel
  exists). -/
def stepRecord (env : TickEnv) (addr : String) (rec : AlertRecord ℚ) : StepResult :=
  match fetch_token_pairs (env.http addr) with
  | none => { record := rec, saved := false, notified := false, err := none }
  | some token_data =>
    match token_data.pairs with
    | none => { record := rec, saved := false, notified := false, err := none }
    | some [] => { record := rec, saved := false, notified := false, err := some .indexError }
    | some (p :: _) =>
      let current_price := p.priceUsd
      let rec1 := { rec with current_price := current_price }
      if rec.vwap_level = 0 then
        { record := rec1, saved := false, notified := false, err := some .zeroDivisionError }
      else if inBand rec.vwap_level current_price then
        if eligible env.now rec.last_alert_time then
          { record := { rec1 with last_alert_time := some env.now }
            saved := true, notified := env.notifyOk, err := none }
        else { record := rec1, saved := false, notified := false, err := none }
      else { record := rec1, saved := false, notified := false, err := none }

/-- State after a (possibly aborted) poll tick: the registry, the record
map persisted in `alerts.json`, the addresses for which an alert message
was delivered this tick, and the uncaught exception that aborted the
tick, if any. -/
structure TickState where
  registry : List (String × AlertRecord ℚ)
  savedFile : List (String × AlertRecord ℚ)
  notifiedAddrs : List String
  err : Option PyErr
deriving DecidableEq

/-- The `for contract_address, alert_data in price_alerts.items()` loop:
records are visited in insertion order, each step mutates its own record
in place; `save_alerts` snapshots the whole current dict; an uncaught
exception aborts the loop, leaving the remaining records unprocessed. -/
def runTick (env : TickEnv) :
    List (String × AlertRecord ℚ) → List (String × AlertRecord ℚ) →
    List (String × AlertRecord ℚ) → List String → TickState
  | done, [], savedFile, notifiedAddrs =>
      { registry := done, savedFile := savedFile, notifiedAddrs := notifiedAddrs, err := none }
  | done, (addr, rec) :: rest, savedFile, notifiedAddrs =>
      let r := stepRecord env addr rec
      let done' := done ++ [(addr, r.record)]
      let savedFile' := if r.saved then done' ++ rest else savedFile
      let notifiedAddrs' := if r.notified then notifiedAddrs ++ [addr] else notifiedAddrs
      match r.err with
      | some e =>
          { registry := done' ++ rest, savedFile := savedFile', notifiedAddrs := notifiedAddrs',
            err := some e }
      | none => runTick env done' rest savedFile' notifiedAddrs'

/-- One tick of `monitor_prices` (src lines 114-153) over the registry,
given the current on-disk record map. -/
def monitor_prices (env : TickEnv)
    (registry savedFile : List (String × AlertRecord ℚ)) : TickState :=
  runTick env [] registry savedFile []

/-! ## Persistence: `save_alerts` / `load_alerts`

`save_alerts` (src lines 26-29) runs `json.dump(price_alerts, f,
default=str)`: every field passes through JSON unchanged except the
`datetime` in `last_alert_time`, which `default=str` turns into
`str(dt)`.  `load_alerts` (src lines 31-42) runs `json.load` and then
`datetime.fromisoformat` on each truthy `last_alert_time`.  The program
only ever stores `datetime.now(timezone.utc)` values, so `str` produces
`YYYY-MM-DD HH:MM:SS[.ffffff]+00:00` (microseconds omitted when zero)
and `fromisoformat` parses exactly that shape back. -/

/-- A timezone-aware UTC `datetime.datetime` value, component-wise. -/
structure PyDatetime where
  year : Nat
  month : Nat
  day : Nat
  hour : Nat
  minute : Nat
  second : Nat
  microsecond : Nat
deriving DecidableEq

/-- Gregorian leap-year rule, as used by `datetime`. -/
def isLeap (y : Nat) : Bool := (y % 4 = 0 && y % 100 != 0) || y % 400 = 0

/-- Days in a month, as validated by the `datetime` constructor. -/
def daysInMonth (y m : Nat) : Nat :=
  if m = 2 then (if isLeap y then 29 else 28)
  else if m = 4 ∨ m = 6 ∨ m = 9 ∨ m = 11 then 30
  else 31

/-- The range checks the `datetime` constructor enforces (and hence
`fromisoformat` re-checks when parsing). -/
def PyDatetime.validB (d : PyDatetime) : Bool :=
  1 ≤ d.year && d.year ≤ 9999 &&
  1 ≤ d.month && d.month ≤ 12 &&
  1 ≤ d.day && d.day ≤ daysInMonth d.year d.month &&
  d.hour ≤ 23 && d.minute ≤ 59 && d.second ≤ 59 && d.microsecond ≤ 999999

/-- The ASCII digit character for `n < 10`. -/
def digitChar (n : Nat) : Char := Char.ofNat (48 + n)

/-- Two-digit zero-padded decimal (`%02d`). -/
def pad2 (n : Nat) : List Char := [digitChar (n / 10), digitChar (n % 10)]

/-- Four-digit zero-padded decimal (`%04d`). -/
def pad4 (n : Nat) : List Char :=
  [digitChar (n / 1000), digitChar (n / 100 % 10), digitChar (n / 10 % 10), digitChar (n % 10)]

/-- Six-digit zero-padded decimal (`%06d`). -/
def pad6 (n : Nat) : List Char :=
  [digitChar (n / 100000), digitChar (n / 10000 % 10), digitChar (n / 1000 % 10),
   digitChar (n / 100 % 10), digitChar (n / 10 % 10), digitChar (n % 10)]

/-- `str(dt)` for an aware UTC datetime: `isoformat(sep=' ')`, i.e.
`YYYY-MM-DD HH:MM:SS[.ffffff]+00:00`, the fractional part present only
when `microsecond` is non-zero. -/
def pyStrDatetime (d : PyDatetime) : String :=
  ⟨pad4 d.year ++ '-' ::
   (pad2 d.month ++ '-' ::
    (pad2 d.day ++ ' ' ::
     (pad2 d.hour ++ ':' ::
      (pad2 d.minute ++ ':' ::
       (pad2 d.second ++
        (if d.microsecond = 0 then [] else '.' :: pad6 d.microsecond) ++
        ['+', '0', '0', ':', '0', '0'])))))⟩

/-- Decimal value of an ASCII digit, or `none`. -/
def decDigit (c : Char) : Option Nat :=
  if 48 ≤ c.toNat ∧ c.toNat ≤ 57 then some (c.toNat - 48) else none

/-- Read exactly two digits. -/
def parse2 : List Char → Option (Nat × List Char)
  | a :: b :: rest =>
    match decDigit a, decDigit b with
    | some x, some y => some (x * 10 + y, rest)
    | _, _ => none
  | _ => none

/-- Read exactly four digits. -/
def parse4 : List Char → Option (Nat × List Char)
  | a :: b :: c :: d :: rest =>
    match decDigit a, decDigit b, decDigit c, decDigit d with
    | some w, some x, some y, some z => some (((w * 10 + x) * 10 + y) * 10 + z, rest)
    | _, _, _, _ => none
  | _ => none

/-- Expect one specific character. -/
def expectChar (c : Char) : List Char → Option (List Char)
  | x :: rest => if x = c then some rest else none
  | _ => none

/-- The date/time separator: `fromisoformat` (Python 3.7-3.10) accepts
any single character at position 10. -/
def eatSep : List Char → Option (List Char)
  | _ :: rest => some rest
  | _ => none

/-- The optional fractional-seconds field in the six-digit form `str`
emits: `.ffffff`, else zero microseconds. -/
def parseFrac : List Char → Option (Nat × List Char)
  | '.' :: a :: b :: c :: d :: e :: f :: rest =>
    match decDigit a, decDigit b, decDigit c, decDigit d, decDigit e, decDigit f with
    | some u, some v, some w, some x, some y, some z =>
      some (((((u * 10 + v) * 10 + w) * 10 + x) * 10 + y) * 10 + z, rest)
    | _, _, _, _, _, _ => none
  | rest => some (0, rest)

/-- The UTC offset suffix `+00:00` (the only offset the program ever
writes), which must end the string. -/
def expectTz : List Char → Option Unit
  | ['+', '0', '0', ':', '0', '0'] => some ()
  | _ => none

/-- `datetime.fromisoformat`, restricted to the strings `str` emits for
aware UTC datetimes: positional parse of date, separator, time, optional
six-digit fraction, and the `+00:00` offset, with the constructor range
checks; `none` models the `ValueError` Python raises otherwise. -/
def fromisoformat (s : String) : Option PyDatetime :=
  (parse4 s.data).bind fun py =>
  (expectChar '-' py.2).bind fun r2 =>
  (parse2 r2).bind fun pmo =>
  (expectChar '-' pmo.2).bind fun r4 =>
  (parse2 r4).bind fun pda =>
  (eatSep pda.2).bind fun r6 =>
  (parse2 r6).bind fun pho =>
  (expectChar ':' pho.2).bind fun r8 =>
  (parse2 r8).bind fun pmi =>
  (expectChar ':' pmi.2).bind fun r10 =>
  (parse2 r10).bind fun pse =>
  (parseFrac pse.2).bind fun pus =>
  (expectTz pus.2).bind fun _ =>
  (let d : PyDatetime :=
    { year := py.1, month := pmo.1, day := pda.1, hour := pho.1,
      minute := pmi.1, second := pse.1, microsecond := pus.1 }
   if d.validB then some d else none)

/-- What `json.dump(..., default=str)` does to one record: every field is
a JSON scalar already except `last_alert_time`, which `default=str`
stringifies (`null` stays `null`). -/
def serializeRecord (r : AlertRecord PyDatetime) : AlertRecord String :=
  { r with last_alert_time := r.last_alert_time.map pyStrDatetime }

/-- The per-record loop of `load_alerts` (src lines 38-40): a truthy
`last_alert_time` is replaced by `datetime.fromisoformat` of itself;
`None` stays.  A parse failure is the uncaught `ValueError`.  (The source
would leave a falsy non-null string, i.e. `""`, unconverted; serialized
snapshots never contain `""`, and the model maps it to the parse
failure.) -/
def deserializeRecord (r : AlertRecord String) : Option (AlertRecord PyDatetime) :=
  match r.last_alert_time with
  | none => some { r with last_alert_time := none }
  | some s => (fromisoformat s).map fun d => { r with last_alert_time := some d }

/-- `save_alerts` (src lines 26-29): serialize the whole record map. -/
def save_alerts (reg : List (String × AlertRecord PyDatetime)) :
    List (String × AlertRecord String) :=
  reg.map fun kv => (kv.1, serializeRecord kv.2)

/-- The timestamp-conversion pass of `load_alerts` over a parsed
snapshot; `none` when any record's timestamp fails to parse. -/
def parseLoaded : List (String × AlertRecord String) →
    Option (List (String × AlertRecord PyDatetime))
  | [] => some []
  | (k, r) :: rest =>
    match deserializeRecord r, parseLoaded rest with
    | some r2, some rest2 => some ((k, r2) :: rest2)
    | _, _ => none

/-- Save then load: the composite the round-trip property is about. -/
def roundTrip (reg : List (String × AlertRecord PyDatetime)) :
    Option (List (String × AlertRecord PyDatetime)) :=
  parseLoaded (save_alerts reg)

/-- `roundTrip` iterated `n` times. -/
def roundTripN : Nat → List (String × AlertRecord PyDatetime) →
    Option (List (String × AlertRecord PyDatetime))
  | 0, reg => some reg
  | n + 1, reg => (roundTrip reg).bind (roundTripN n)

/-- Every stored timestamp is a constructible `datetime` — true of every
registry the program builds, since timestamps come from
`datetime.now(timezone.utc)`. -/
def ValidRegistry (reg : List (String × AlertRecord PyDatetime)) : Prop :=
  ∀ kv ∈ reg, kv.2.last_alert_time.all PyDatetime.validB = true

instance : DecidablePred ValidRegistry := fun reg =>
  inferInstanceAs (Decidable (∀ kv ∈ reg, kv.2.last_alert_time.all PyDatetime.validB = true))

/-- State of `alerts.json` on disk: absent, present but not valid JSON,
or a parsed snapshot. -/
inductive FileState where
  | missing
  | unparseable
  | snapshot (m : List (String × AlertRecord String))
deriving DecidableEq

/-- The one load-time failure: an uncaught exception
(`json.JSONDecodeError` from `json.load`, or `ValueError` from
`fromisoformat`) — the spec's `CorruptState`. -/
inductive LoadError where
  | corruptState
deriving DecidableEq

/-- A `last_alert_time` value held by the in-memory global during and
after `load_alerts`: either a converted `datetime` or a still-raw string
(the loop of src lines 38-40 converts the loaded dict in place, record by
record, so on a mid-loop `ValueError` the dict is left mixed). -/
inductive LoadedTs where
  | dt (d : PyDatetime)
  | raw (s : String)
deriving DecidableEq

/-- A freshly `json.load`ed record, before its timestamp is converted:
the string, if any, is still raw. -/
def rawLoaded (r : AlertRecord String) : AlertRecord LoadedTs :=
  { r with last_alert_time := r.last_alert_time.map LoadedTs.raw }

/-- The conversion loop of `load_alerts` (src lines 38-40) over the dict
`json.load` just assigned to the global: for each record in order, a
truthy (non-null, non-empty) `last_alert_time` string is replaced in
place by `datetime.fromisoformat` of itself; `None` and the falsy `""`
are left as they are.  A parse failure raises `ValueError` on the spot,
leaving the records already visited converted and the failing record and
everything after it raw.  Returns the registry as the loop leaves it,
with the uncaught exception, if any. -/
def convertLoop :
    List (String × AlertRecord LoadedTs) → List (String × AlertRecord String) →
    List (String × AlertRecord LoadedTs) × Option LoadError
  | done, [] => (done, none)
  | done, (k, r) :: rest =>
    match r.last_alert_time with
    | none => convertLoop (done ++ [(k, rawLoaded r)]) rest
    | some s =>
      if s = "" then convertLoop (done ++ [(k, rawLoaded r)]) rest
      else
        match fromisoformat s with
        | some d =>
          convertLoop (done ++ [(k, { rawLoaded r with last_alert_time := some (.dt d) })]) rest
        | none =>
          (done ++ (k, rawLoaded r) :: rest.map (fun kv => (kv.1, rawLoaded kv.2)),
           some .corruptState)

/-- `load_alerts` (src lines 31-42), with its effect on the global
`price_alerts` on every path: `FileNotFoundError` is caught and the
registry becomes `{}`; a file that is not valid JSON raises out of
`json.load` BEFORE the global is reassigned, so the previous registry
survives; a parseable snapshot first REPLACES the global with the raw
loaded dict and then runs the in-place conversion loop, so a timestamp
`ValueError` (with `JSONDecodeError`, the spec's `CorruptState`) escapes
with the global holding the partially-converted snapshot.  Returns the
registry after the call and the uncaught exception, if any. -/
def load_alerts (fs : FileState) (prev : List (String × AlertRecord LoadedTs)) :
    List (String × AlertRecord LoadedTs) × Option LoadError :=
  match fs with
  | .missing => ([], none)
  | .unparseable => (prev, some .corruptState)
  | .snapshot m => convertLoop [] m

/-- `on_ready` (src lines 238-247): `load_alerts()` then
`monitor_prices.start()`.  An exception in `load_alerts` aborts the
handler before the poller starts; the registry is whatever `load_alerts`
left behind, and the on-disk file is not touched.  Returns (registry
after, poller started, file state after). -/
def on_ready (fs : FileState) (prev : List (String × AlertRecord LoadedTs)) :
    List (String × AlertRecord LoadedTs) × Bool × FileState :=
  match load_alerts fs prev with
  | (reg, none) => (reg, true, fs)
  | (reg, some _) => (reg, false, fs)

/-! ## Round-trip lemmas for the datetime encoding -/

lemma decDigit_digitChar (k : Nat) (h : k ≤ 9) : decDigit (digitChar k) = some k := by
  interval_cases k <;> decide

lemma parse2_pad2 (n : Nat) (h : n ≤ 99) (rest : List Char) :
    parse2 (pad2 n ++ rest) = some (n, rest) := by
  have h1 : n / 10 ≤ 9 := by omega
  have h2 : n % 10 ≤ 9 := by omega
  simp [pad2, parse2, decDigit_digitChar _ h1, decDigit_digitChar _ h2]
  omega

lemma parse4_pad4 (n : Nat) (h : n ≤ 9999) (rest : List Char) :
    parse4 (pad4 n ++ rest) = some (n, rest) := by
  have h1 : n / 1000 ≤ 9 := by omega
  have h2 : n / 100 % 10 ≤ 9 := by omega
  have h3 : n / 10 % 10 ≤ 9 := by omega
  have h4 : n % 10 ≤ 9 := by omega
  simp [pad4, parse4, decDigit_digitChar _ h1, decDigit_digitChar _ h2,
    decDigit_digitChar _ h3, decDigit_digitChar _ h4]
  omega

lemma parseFrac_pad6 (n : Nat) (h : n ≤ 999999) (rest : List Char) :
    parseFrac ('.' :: (pad6 n ++ rest)) = some (n, rest) := by
  have h1 : n / 100000 ≤ 9 := by omega
  have h2 : n / 10000 % 10 ≤ 9 := by omega
  have h3 : n / 1000 % 10 ≤ 9 := by omega
  have h4 : n / 100 % 10 ≤ 9 := by omega
  have h5 : n / 10 % 10 ≤ 9 := by omega
  have h6 : n % 10 ≤ 9 := by omega
  simp [pad6, parseFrac, decDigit_digitChar _ h1, decDigit_digitChar _ h2,
    decDigit_digitChar _ h3, decDigit_digitChar _ h4, decDigit_digitChar _ h5,
    decDigit_digitChar _ h6]
  omega

lemma expectChar_cons (c : Char) (rest : List Char) : expectChar c (c :: rest) = some rest := by
  simp [expectChar]

lemma eatSep_cons (c : Char) (rest : List Char) : eatSep (c :: rest) = some rest := rfl

lemma daysInMonth_le (y m : Nat) : daysInMonth y m ≤ 31 := by
  unfold daysInMonth
  split
  · split <;> omega
  · split <;> omega

set_option maxHeartbeats 1000000 in
/-- `fromisoformat` inverts `str` on every constructible datetime. -/
theorem fromiso_pyStr (d : PyDatetime) (h : d.validB = true) :
    fromisoformat (pyStrDatetime d) = some d := by
  obtain ⟨y, mo, da, ho, mi, se, us⟩ := d
  simp only [PyDatetime.validB, Bool.and_eq_true, decide_eq_true_eq] at h
  obtain ⟨⟨⟨⟨⟨⟨⟨⟨⟨hy1, hy2⟩, hm1⟩, hm2⟩, hd1⟩, hd2⟩, hh⟩, hmi⟩, hs⟩, hu⟩ := h
  have hda : da ≤ 99 := le_trans hd2 (le_trans (daysInMonth_le y mo) (by omega))
  have hdata : (pyStrDatetime ⟨y, mo, da, ho, mi, se, us⟩).data =
      pad4 y ++ '-' ::
       (pad2 mo ++ '-' ::
        (pad2 da ++ ' ' ::
         (pad2 ho ++ ':' ::
          (pad2 mi ++ ':' ::
           (pad2 se ++
            (if us = 0 then [] else '.' :: pad6 us) ++
            ['+', '0', '0', ':', '0', '0']))))) := rfl
  have hvalid : PyDatetime.validB ⟨y, mo, da, ho, mi, se, us⟩ = true := by
    simp only [PyDatetime.validB, Bool.and_eq_true, decide_eq_true_eq]
    exact ⟨⟨⟨⟨⟨⟨⟨⟨⟨hy1, hy2⟩, hm1⟩, hm2⟩, hd1⟩, hd2⟩, hh⟩, hmi⟩, hs⟩, hu⟩
  have htz : parseFrac ['+', '0', '0', ':', '0', '0'] =
      some (0, ['+', '0', '0', ':', '0', '0']) := by decide
  have hetz : expectTz ['+', '0', '0', ':', '0', '0'] = some () := by decide
  by_cases hus : us = 0
  · subst hus
    unfold fromisoformat
    rw [hdata]
    simp only [reduceIte, List.append_nil]
    rw [parse4_pad4 y (by omega)]
    simp only [Option.some_bind]
    rw [expectChar_cons]
    simp only [Option.some_bind]
    rw [parse2_pad2 mo (by omega)]
    simp only [Option.some_bind]
    rw [expectChar_cons]
    simp only [Option.some_bind]
    rw [parse2_pad2 da hda]
    simp only [Option.some_bind]
    rw [eatSep_cons]
    simp only [Option.some_bind]
    rw [parse2_pad2 ho (by omega)]
    simp only [Option.some_bind]
    rw [expectChar_cons]
    simp only [Option.some_bind]
    rw [parse2_pad2 mi (by omega)]
    simp only [Option.some_bind]
    rw [expectChar_cons]
    simp only [Option.some_bind]
    rw [parse2_pad2 se (by omega)]
    simp only [Option.some_bind]
    rw [htz]
    simp only [Option.some_bind]
    rw [hetz]
    simp only [Option.some_bind]
    rw [hvalid]
    simp
  · unfold fromisoformat
    rw [hdata]
    simp only [if_neg hus, List.append_assoc, List.cons_append]
    rw [parse4_pad4 y (by omega)]
    simp only [Option.some_bind]
    rw [expectChar_cons]
    simp only [Option.some_bind]
    rw [parse2_pad2 mo (by omega)]
    simp only [Option.some_bind]
    rw [expectChar_cons]
    simp only [Option.some_bind]
    rw [parse2_pad2 da hda]
    simp only [Option.some_bind]
    rw [eatSep_cons]
    simp only [Option.some_bind]
    rw [parse2_pad2 ho (by omega)]
    simp only [Option.some_bind]
    rw [expectChar_cons]
    simp only [Option.some_bind]
    rw [parse2_pad2 mi (by omega)]
    simp only [Option.some_bind]
    rw [expectChar_cons]
    simp only [Option.some_bind]
    rw [parse2_pad2 se (by omega)]
    simp only [Option.some_bind]
    rw [parseFrac_pad6 us hu]
    simp only [Option.some_bind]
    rw [hetz]
    simp only [Option.some_bind]
    rw [hvalid]
    simp

/-- One record survives serialize-then-deserialize unchanged. -/
lemma deserialize_serialize (r : AlertRecord PyDatetime)
    (h : r.last_alert_time.all PyDatetime.validB = true) :
    deserializeRecord (serializeRecord r) = some r := by
  obtain ⟨v, t, c, u, p, last⟩ := r
  cases last with
  | none => rfl
  | some d =>
    simp only [Option.all_some] at h
    simp [serializeRecord, deserializeRecord, fromiso_pyStr d h]

/-- The full record map survives save-then-load unchanged. -/
lemma roundTrip_id (reg : List (String × AlertRecord PyDatetime)) (h : ValidRegistry reg) :
    roundTrip reg = some reg := by
  induction reg with
  | nil => rfl
  | cons kv rest ih =>
    have h1 : kv.2.last_alert_time.all PyDatetime.validB = true :=
      h kv (List.mem_cons_self _ _)
    have h2 : ValidRegistry rest := fun x hx => h x (List.mem_cons_of_mem _ hx)
    have ih2 := ih h2
    simp only [roundTrip, save_alerts, List.map_cons, parseLoaded] at ih2 ⊢
    rw [deserialize_serialize kv.2 h1, ih2]

/-- Iterating save-then-load any number of times is the identity. -/
lemma roundTripN_id (n : Nat) (reg : List (String × AlertRecord PyDatetime))
    (h : ValidRegistry reg) : roundTripN n reg = some reg := by
  induction n with
  | zero => rfl
  | succ n ih => simp [roundTripN, roundTrip_id reg h, ih]

/-! ## Evaluation lemmas for one poll-loop step -/

/-- The spec-side ranked price: the price of the top pair under the
registration-time ranking rule of `fetch_top_pairs` (liquidity filter,
stable descending sort). -/
def topRankedPrice (td : TokenData) : Option ℚ :=
  ((fetch_top_pairs (.ok td) 5).getD []).head?.map fun p => p.priceUsd

/-- A successful fetch with an in-band price and a passing suppression
test fires: price and `last_alert_time` are overwritten, `save_alerts`
runs, and the alert is delivered exactly when the channel exists. -/
lemma stepRecord_fire (env : TickEnv) (addr : String) (rec : AlertRecord ℚ)
    (td : TokenData) (p : PairData) (rest : List PairData)
    (h1 : env.http addr = .ok td) (h2 : td.pairs = some (p :: rest))
    (hv : rec.vwap_level ≠ 0) (hb : inBand rec.vwap_level p.priceUsd = true)
    (he : eligible env.now rec.last_alert_time = true) :
    stepRecord env addr rec =
      { record := { rec with current_price := p.priceUsd, last_alert_time := some env.now },
        saved := true, notified := env.notifyOk, err := none } := by
  simp [stepRecord, fetch_token_pairs, h1, h2, hv, hb, he]

/-- A successful fetch with an in-band price but a failing suppression
test only rewrites `current_price` in memory. -/
lemma stepRecord_suppressed (env : TickEnv) (addr : String) (rec : AlertRecord ℚ)
    (td : TokenData) (p : PairData) (rest : List PairData)
    (h1 : env.http addr = .ok td) (h2 : td.pairs = some (p :: rest))
    (hv : rec.vwap_level ≠ 0) (hb : inBand rec.vwap_level p.priceUsd = true)
    (he : eligible env.now rec.last_alert_time = false) :
    stepRecord env addr rec =
      { record := { rec with current_price := p.priceUsd },
        saved := false, notified := false, err := none } := by
  simp [stepRecord, fetch_token_pairs, h1, h2, hv, hb, he]

/-- A successful fetch with an out-of-band price only rewrites
`current_price` in memory. -/
lemma stepRecord_outband (env : TickEnv) (addr : String) (rec : AlertRecord ℚ)
    (td : TokenData) (p : PairData) (rest : List PairData)
    (h1 : env.http addr = .ok td) (h2 : td.pairs = some (p :: rest))
    (hv : rec.vwap_level ≠ 0) (hb : inBand rec.vwap_level p.priceUsd = false) :
    stepRecord env addr rec =
      { record := { rec with current_price := p.priceUsd },
        saved := false, notified := false, err := none } := by
  simp [stepRecord, fetch_token_pairs, h1, h2, hv, hb]

/-- Under a successful in-band fetch, the step saves (fires) exactly when
the suppression test passes. -/
lemma stepRecord_saved_eq_eligible (env : TickEnv) (addr : String) (rec : AlertRecord ℚ)
    (td : TokenData) (p : PairData) (rest : List PairData)
    (h1 : env.http addr = .ok td) (h2 : td.pairs = some (p :: rest))
    (hv : rec.vwap_level ≠ 0) (hb : inBand rec.vwap_level p.priceUsd = true) :
    (stepRecord env addr rec).saved = eligible env.now rec.last_alert_time := by
  by_cases he : eligible env.now rec.last_alert_time = true
  · rw [stepRecord_fire env addr rec td p rest h1 h2 hv hb he, he]
  · have he2 : eligible env.now rec.last_alert_time = false := by simpa using he
    rw [stepRecord_suppressed env addr rec td p rest h1 h2 hv hb he2, he2]

/-! ## Claim C1 -/

def c1Env : TickEnv :=
  { http := fun _ => .ok { pairs := some [{ baseSymbol := "TKN", priceUsd := 100, liquidity := some 1000 }] }
    now := 1000
    notifyOk := false }

def c1Rec : AlertRecord ℚ :=
  { vwap_level := 100, ticker := "TKN", current_price := 50, user := "alice",
    profile_pic := "avatar", last_alert_time := none }

/-- Claim C1 as stated is false on the code: with an in-band, eligible
record and a failing notification dispatch (the `price-alerts` channel is
missing, so `send_alert_message` delivers nothing), the step still sets
`last_alert_time` to now and persists — `monitor_prices` updates and
saves BEFORE awaiting `send_alert_message` (src lines 145-151), so the
record does not stay eligible for the next tick. -/
theorem c1_counterexample :
    stepRecord c1Env "0xtoken" c1Rec =
      { record := { vwap_level := 100, ticker := "TKN", current_price := 100, user := "alice",
                    profile_pic := "avatar", last_alert_time := some 1000 },
        saved := true, notified := false, err := none } ∧
    c1Rec.last_alert_time = none := by
  refine ⟨?_, rfl⟩
  have hb : inBand (100 : ℚ) 100 = true := by norm_num [inBand, lower_bound, upper_bound]
  rw [stepRecord_fire c1Env "0xtoken" c1Rec _ _ _ rfl rfl (by norm_num [c1Rec]) hb rfl]
  simp [c1Rec, c1Env]

/-- Claim C1, amended: on an in-band, eligible observation the record is
marked fired (`last_alert_time = now`) and persisted unconditionally,
before and regardless of the notification dispatch outcome; a dispatch
failure does not roll the update back, so the alert is suppressed for the
next 24h even though nothing was delivered. -/
theorem c1_fired_regardless_of_dispatch (env : TickEnv) (addr : String)
    (rec : AlertRecord ℚ) (td : TokenData) (p : PairData) (rest : List PairData)
    (h1 : env.http addr = .ok td) (h2 : td.pairs = some (p :: rest))
    (hv : rec.vwap_level ≠ 0) (hb : inBand rec.vwap_level p.priceUsd = true)
    (he : eligible env.now rec.last_alert_time = true) :
    stepRecord env addr rec =
      { record := { rec with current_price := p.priceUsd, last_alert_time := some env.now },
        saved := true, notified := env.notifyOk, err := none } :=
  stepRecord_fire env addr rec td p rest h1 h2 hv hb he

def c1wEnv : TickEnv :=
  { http := fun _ => .ok { pairs := some [{ baseSymbol := "TKN", priceUsd := 95, liquidity := some 7 }] }
    now := 2000
    notifyOk := true }

lemma c1w_band : inBand 100 95 = true := by norm_num [inBand, lower_bound, upper_bound]

lemma c1w_level : (100 : ℚ) ≠ 0 := by norm_num

/-- Concrete instance of `c1_fired_regardless_of_dispatch`. -/
theorem c1_witness :
    inBand 100 95 = true ∧ eligible 2000 (none : Option ℚ) = true ∧
    stepRecord c1wEnv "t" c1Rec =
      { record := { vwap_level := 100, ticker := "TKN", current_price := 95, user := "alice",
                    profile_pic := "avatar", last_alert_time := some 2000 },
        saved := true, notified := true, err := none } :=
  ⟨c1w_band, rfl,
    c1_fired_regardless_of_dispatch c1wEnv "t" c1Rec _ _ _ rfl rfl c1w_level c1w_band rfl⟩

/-! ## Claim C2 -/

def c2Env : TickEnv :=
  { http := fun _ => .ok { pairs := some [{ baseSymbol := "TKN", priceUsd := 200, liquidity := some 1000 }] }
    now := 1000
    notifyOk := true }

def c2Rec : AlertRecord ℚ :=
  { vwap_level := 100, ticker := "TKN", current_price := 50, user := "alice",
    profile_pic := "avatar", last_alert_time := none }

/-- Claim C2 as stated is false on the code: a poll tick that observes an
out-of-band price overwrites `current_price` in the registry but calls
`save_alerts` only when an alert fires (src line 146), so after the tick
the in-memory registry and the persisted snapshot differ. -/
theorem c2_counterexample :
    monitor_prices c2Env [("t", c2Rec)] [("t", c2Rec)] =
      { registry := [("t", { c2Rec with current_price := 200 })],
        savedFile := [("t", c2Rec)], notifiedAddrs := [], err := none } ∧
    [("t", ({ c2Rec with current_price := 200 } : AlertRecord ℚ))] ≠ [("t", c2Rec)] := by
  constructor
  · have hb : inBand (100 : ℚ) 200 = false := by norm_num [inBand, lower_bound, upper_bound]
    have hs := stepRecord_outband c2Env "t" c2Rec _ _ _ rfl rfl (by norm_num [c2Rec]) hb
    simp [monitor_prices, runTick, hs]
  · simp [c2Rec]

/-- Claim C2, amended: registration and removal do persist the full
record set before completing, but the poller persists only when an alert
fires — the per-tick `current_price` (lastKnownPrice) update is
in-memory only, so a non-firing observation leaves the persisted
snapshot stale. -/
theorem c2_persistence_amended :
    (∀ resp addr level u av reg sv,
        (vwap resp addr level u av reg sv).ok = true →
        (vwap resp addr level u av reg sv).savedFile = (vwap resp addr level u av reg sv).registry) ∧
    (∀ addr reg sv,
        (remove_token addr reg sv).ok = true →
        (remove_token addr reg sv).savedFile = (remove_token addr reg sv).registry) ∧
    (∀ env addr rec td p rest, env.http addr = .ok td → td.pairs = some (p :: rest) →
        rec.vwap_level ≠ 0 →
        (inBand rec.vwap_level p.priceUsd = false ∨ eligible env.now rec.last_alert_time = false) →
        stepRecord env addr rec =
          { record := { rec with current_price := p.priceUsd },
            saved := false, notified := false, err := none }) := by
  refine ⟨?_, ?_, ?_⟩
  · intro resp addr level u av reg sv
    unfold vwap
    split <;> simp
  · intro addr reg sv
    simp only [remove_token]
    split <;> simp
  · intro env addr rec td p rest h1 h2 hv hcase
    rcases hcase with hb | he
    · exact stepRecord_outband env addr rec td p rest h1 h2 hv hb
    · cases hb : inBand rec.vwap_level p.priceUsd with
      | false => exact stepRecord_outband env addr rec td p rest h1 h2 hv hb
      | true => exact stepRecord_suppressed env addr rec td p rest h1 h2 hv hb he

def c2wResp : HttpResp :=
  .ok { pairs := some [{ baseSymbol := "PEPE", priceUsd := 2, liquidity := some 500 }] }

lemma c2w_band : inBand 100 200 = false := by norm_num [inBand, lower_bound, upper_bound]

lemma c2w_level : (100 : ℚ) ≠ 0 := by norm_num

/-- Concrete instances of the three parts of `c2_persistence_amended`. -/
theorem c2_witness :
    (vwap c2wResp "0xa" 7 "bob" "av" [] []).ok = true ∧
    (vwap c2wResp "0xa" 7 "bob" "av" [] []).savedFile =
      (vwap c2wResp "0xa" 7 "bob" "av" [] []).registry ∧
    (remove_token "t" [("t", c2Rec)] [("t", c2Rec)]).ok = true ∧
    (remove_token "t" [("t", c2Rec)] [("t", c2Rec)]).savedFile =
      (remove_token "t" [("t", c2Rec)] [("t", c2Rec)]).registry ∧
    inBand 100 200 = false ∧
    stepRecord c2Env "t" c2Rec =
      { record := { c2Rec with current_price := 200 },
        saved := false, notified := false, err := none } :=
  ⟨rfl,
   c2_persistence_amended.1 c2wResp "0xa" 7 "bob" "av" [] [] rfl,
   rfl,
   c2_persistence_amended.2.1 "t" [("t", c2Rec)] [("t", c2Rec)] rfl,
   c2w_band,
   c2_persistence_amended.2.2 c2Env "t" c2Rec _ _ _ rfl rfl c2w_level (Or.inl c2w_band)⟩

/-! ## Claim C3 -/

def c3Resp : HttpResp :=
  .ok { pairs := some [{ baseSymbol := "PEPE", priceUsd := 2, liquidity := some 500 }] }

/-- Claim C3 as stated is false on the code: `vwap` never inspects
`vwap_level`, so a registration with `targetPrice = 0` succeeds and
creates the record — there is no `InvalidTarget` path (src lines
44-112). -/
theorem c3_counterexample :
    (vwap c3Resp "0xAbC" 0 "bob" "av" [] []).ok = true ∧
    (vwap c3Resp "0xAbC" 0 "bob" "av" [] []).registry =
      [("0xabc", { vwap_level := 0, ticker := "PEPE", current_price := 2, user := "bob",
                   profile_pic := "av", last_alert_time := none })] := by
  exact ⟨rfl, rfl⟩

/-- Claim C3, amended: registration performs no validation of the target
price at all — for every `vwap_level` (including every value `≤ 0`),
whenever the upstream response yields at least one ranked pair the
command succeeds and writes/overwrites the record keyed by the
lower-cased address; in particular every `targetPrice > 0` with a
tradable pair succeeds, but so does every `targetPrice ≤ 0`. -/
theorem c3_no_target_validation (resp : HttpResp) (addr : String) (level : ℚ)
    (u av : String) (reg sv : List (String × AlertRecord ℚ))
    (top : PairData) (rest : List PairData)
    (h : fetch_top_pairs resp 5 = some (top :: rest)) :
    vwap resp addr level u av reg sv =
      { registry := dictInsert reg (lowercase addr)
          { vwap_level := level, ticker := top.baseSymbol, current_price := top.priceUsd,
            user := u, profile_pic := av, last_alert_time := none }
        savedFile := dictInsert reg (lowercase addr)
          { vwap_level := level, ticker := top.baseSymbol, current_price := top.priceUsd,
            user := u, profile_pic := av, last_alert_time := none }
        ok := true } := by
  simp [vwap, h]

/-- Concrete instance of `c3_no_target_validation`, at a negative target. -/
theorem c3_witness :
    fetch_top_pairs c3Resp 5 =
      some [{ baseSymbol := "PEPE", priceUsd := 2, liquidity := some 500 }] ∧
    vwap c3Resp "0xDeF" (-3) "bob" "av" [] [] =
      { registry := [("0xdef", { vwap_level := -3, ticker := "PEPE", current_price := 2,
                                 user := "bob", profile_pic := "av", last_alert_time := none })]
        savedFile := [("0xdef", { vwap_level := -3, ticker := "PEPE", current_price := 2,
                                  user := "bob", profile_pic := "av", last_alert_time := none })]
        ok := true } :=
  ⟨rfl, c3_no_target_validation c3Resp "0xDeF" (-3) "bob" "av" [] [] _ _ rfl⟩

/-! ## Claim C4 -/

def c4Env : TickEnv :=
  { http := fun a =>
      if a = "t1" then .ok { pairs := some [] }
      else .ok { pairs := some [{ baseSymbol := "B", priceUsd := 100, liquidity := some 10 }] }
    now := 500
    notifyOk := true }

def c4RecA : AlertRecord ℚ :=
  { vwap_level := 100, ticker := "A", current_price := 50, user := "alice",
    profile_pic := "av", last_alert_time := none }

def c4RecB : AlertRecord ℚ :=
  { vwap_level := 100, ticker := "B", current_price := 50, user := "bob",
    profile_pic := "av", last_alert_time := none }

/-- Claim C4 exposes a code bug: a 200 response whose `pairs` array is
present but EMPTY passes the `if token_data and 'pairs' in token_data`
guard, so `token_data['pairs'][0]` (src line 125) raises `IndexError`,
aborting the tick — the second watched token is never processed even
though, had it been, it would have fired (second conjunct).  The spec
(§4.3, §6, §7) requires empty `pairs` to be treated as "no data" and
skipped. -/
theorem c4_empty_pairs_aborts_tick :
    monitor_prices c4Env [("t1", c4RecA), ("t2", c4RecB)] [("t1", c4RecA), ("t2", c4RecB)] =
      { registry := [("t1", c4RecA), ("t2", c4RecB)],
        savedFile := [("t1", c4RecA), ("t2", c4RecB)],
        notifiedAddrs := [], err := some .indexError } ∧
    (stepRecord c4Env "t2" c4RecB).saved = true := by
  constructor
  · rfl
  · have hb : inBand (100 : ℚ) 100 = true := by norm_num [inBand, lower_bound, upper_bound]
    rw [stepRecord_fire c4Env "t2" c4RecB _ _ _ rfl rfl (by norm_num [c4RecB]) hb rfl]

/-! ## Claim C5 -/

def c5PairLow : PairData := { baseSymbol := "A", priceUsd := 1, liquidity := some 10 }

def c5PairHigh : PairData := { baseSymbol := "B", priceUsd := 2, liquidity := some 100 }

def c5Td : TokenData := { pairs := some [c5PairLow, c5PairHigh] }

def c5Env : TickEnv := { http := fun _ => .ok c5Td, now := 500, notifyOk := true }

def c5Rec : AlertRecord ℚ :=
  { vwap_level := 100, ticker := "A", current_price := 50, user := "alice",
    profile_pic := "av", last_alert_time := none }

/-- Claim C5 as stated is false on the code: `monitor_prices` reads
`token_data['pairs'][0]` — the FIRST pair in upstream input order — while
the ranking rule (as implemented by `fetch_top_pairs` and used at
registration) puts the highest-liquidity pair first.  With a
lower-liquidity pair first in input order the two prices differ. -/
theorem c5_counterexample :
    (stepRecord c5Env "t" c5Rec).record.current_price = 1 ∧
    topRankedPrice c5Td = some 2 ∧
    (1 : ℚ) ≠ 2 := by
  refine ⟨?_, ?_, by norm_num⟩
  · have hb : inBand (100 : ℚ) 1 = false := by norm_num [inBand, lower_bound, upper_bound]
    rw [stepRecord_outband c5Env "t" c5Rec _ _ _ rfl rfl (by norm_num [c5Rec]) hb]
    rfl
  · norm_num [topRankedPrice, fetch_top_pairs, c5Td, sortDesc, insertDesc, liqKey,
      c5PairLow, c5PairHigh]

/-- Claim C5, amended: the price the poller evaluates each tick is the
price of the first element of the payload's `pairs` array in upstream
input order, with no liquidity filtering or ranking applied; it
coincides with the registration-time ranked top price only when that
first pair happens to be the ranked top. -/
theorem c5_poller_uses_first_pair (env : TickEnv) (addr : String) (rec : AlertRecord ℚ)
    (td : TokenData) (p : PairData) (rest : List PairData)
    (h1 : env.http addr = .ok td) (h2 : td.pairs = some (p :: rest)) :
    (stepRecord env addr rec).record.current_price = p.priceUsd := by
  simp only [stepRecord, fetch_token_pairs, h1, h2]
  by_cases hv : rec.vwap_level = 0
  · simp [hv]
  · by_cases hb : inBand rec.vwap_level p.priceUsd = true
    · by_cases he : eligible env.now rec.last_alert_time = true
      · simp [hv, hb, he]
      · simp [hv, hb, he]
    · simp [hv, hb]

/-- Concrete instance of `c5_poller_uses_first_pair`. -/
theorem c5_witness :
    c5Env.http "t" = .ok c5Td ∧ c5Td.pairs = some [c5PairLow, c5PairHigh] ∧
    (stepRecord c5Env "t" c5Rec).record.current_price = c5PairLow.priceUsd :=
  ⟨rfl, rfl, c5_poller_uses_first_pair c5Env "t" c5Rec c5Td c5PairLow [c5PairHigh] rfl rfl⟩

/-! ## Claim C6 -/

/-- Claim C6: the band test of `monitor_prices` holds exactly when
`target * 0.9 ≤ price ≤ target * 1.1`, both bounds inclusive; for
`target = 100` the prices 90 and 110 are inside and 89.99 and 110.01 are
outside. -/
theorem c6_band_inclusive :
    (∀ t p : ℚ, inBand t p = true ↔ (t * 0.9 ≤ p ∧ p ≤ t * 1.1)) ∧
    inBand 100 90 = true ∧ inBand 100 110 = true ∧
    inBand 100 89.99 = false ∧ inBand 100 110.01 = false := by
  refine ⟨fun t p => ?_, ?_, ?_, ?_, ?_⟩
  · simp [inBand, lower_bound, upper_bound]
  all_goals norm_num [inBand, lower_bound, upper_bound]

/-! ## Claim C7 -/

/-- Claim C7: under a successful in-band observation, the alert fires
(the step marks and saves) iff `last_alert_time` is null or at least
`timedelta(days=1)` = 86400 s old; and after a fire at time `T`, an
in-band price at `T + 86340` (23h59m) does not fire while one at
`T + 86400` (24h) does. -/
theorem c7_suppression_window :
    (∀ env addr rec td p rest, env.http addr = .ok td → td.pairs = some (p :: rest) →
        rec.vwap_level ≠ 0 → inBand rec.vwap_level p.priceUsd = true →
        ((stepRecord env addr rec).saved = true ↔
          (rec.last_alert_time = none ∨
            ∃ t, rec.last_alert_time = some t ∧ env.now - t ≥ 86400))) ∧
    (∀ env addr rec td p rest T, env.http addr = .ok td → td.pairs = some (p :: rest) →
        rec.vwap_level ≠ 0 → inBand rec.vwap_level p.priceUsd = true →
        rec.last_alert_time = some T →
        ((env.now = T + 86340 → (stepRecord env addr rec).saved = false) ∧
         (env.now = T + 86400 → (stepRecord env addr rec).saved = true))) := by
  constructor
  · intro env addr rec td p rest h1 h2 hv hb
    rw [stepRecord_saved_eq_eligible env addr rec td p rest h1 h2 hv hb]
    cases hl : rec.last_alert_time with
    | none => simp [eligible]
    | some t => simp [eligible]
  · intro env addr rec td p rest T h1 h2 hv hb hl
    rw [stepRecord_saved_eq_eligible env addr rec td p rest h1 h2 hv hb, hl]
    constructor
    · intro hn
      rw [hn]
      simp only [eligible, ge_iff_le, decide_eq_false_iff_not, not_le]
      linarith
    · intro hn
      rw [hn]
      simp only [eligible, ge_iff_le, decide_eq_true_eq]
      linarith

def c7wEnv : TickEnv :=
  { http := fun _ => .ok { pairs := some [{ baseSymbol := "T", priceUsd := 95, liquidity := some 3 }] }
    now := 86340
    notifyOk := true }

def c7wEnvB : TickEnv :=
  { http := fun _ => .ok { pairs := some [{ baseSymbol := "T", priceUsd := 95, liquidity := some 3 }] }
    now := 86400
    notifyOk := true }

def c7wRec : AlertRecord ℚ :=
  { vwap_level := 100, ticker := "T", current_price := 7, user := "u",
    profile_pic := "p", last_alert_time := some 0 }

lemma c7w_band : inBand 100 95 = true := by norm_num [inBand, lower_bound, upper_bound]

lemma c7w_level : (100 : ℚ) ≠ 0 := by norm_num

lemma c7w_nowA : (86340 : ℚ) = 0 + 86340 := by norm_num

lemma c7w_nowB : (86400 : ℚ) = 0 + 86400 := by norm_num

/-- Concrete instances of both parts of `c7_suppression_window`: a record
last fired at `T = 0` does not fire at 23h59m and does fire at 24h. -/
theorem c7_witness :
    inBand 100 95 = true ∧
    ((stepRecord c7wEnv "t" c7wRec).saved = true ↔
      ((c7wRec.last_alert_time = none ∨
        ∃ t, c7wRec.last_alert_time = some t ∧ c7wEnv.now - t ≥ 86400))) ∧
    (stepRecord c7wEnv "t" c7wRec).saved = false ∧
    (stepRecord c7wEnvB "t" c7wRec).saved = true :=
  ⟨c7w_band,
   c7_suppression_window.1 c7wEnv "t" c7wRec _ _ _ rfl rfl c7w_level c7w_band,
   (c7_suppression_window.2 c7wEnv "t" c7wRec _ _ _ 0 rfl rfl c7w_level c7w_band rfl).1 c7w_nowA,
   (c7_suppression_window.2 c7wEnvB "t" c7wRec _ _ _ 0 rfl rfl c7w_level c7w_band rfl).2 c7w_nowB⟩

/-! ## Claim C8 -/

/-- Claim C8: saving and then loading reproduces the record set exactly
(in particular to at-least-second granularity and UTC-normalized — here
exactly, including microseconds), and iterating the save-load composite
any number of times is the identity on the record set. -/
theorem c8_roundtrip (reg : List (String × AlertRecord PyDatetime))
    (h : ValidRegistry reg) :
    roundTrip reg = some reg ∧ ∀ n, roundTripN n reg = some reg :=
  ⟨roundTrip_id reg h, fun n => roundTripN_id n reg h⟩

def c8Reg : List (String × AlertRecord PyDatetime) :=
  [("0xabc", { vwap_level := 100, ticker := "TKN", current_price := 95, user := "alice",
               profile_pic := "url", last_alert_time := some ⟨2024, 11, 5, 14, 30, 59, 123456⟩ }),
   ("0xdef", { vwap_level := 3, ticker := "PEPE", current_price := 2, user := "bob",
               profile_pic := "url2", last_alert_time := none })]

/-- Concrete instance of `c8_roundtrip` on a two-record registry, one
timestamp with microseconds and one null. -/
theorem c8_witness :
    ValidRegistry c8Reg ∧ roundTrip c8Reg = some c8Reg ∧ roundTripN 3 c8Reg = some c8Reg :=
  ⟨by decide, (c8_roundtrip c8Reg (by decide)).1, (c8_roundtrip c8Reg (by decide)).2 3⟩

/-! ## Claim C9 -/

/-- Claim C9: loading with no snapshot file yields the empty alert set
without error and the poller starts; when a snapshot exists but cannot
be parsed — the file is not JSON, or a timestamp string does not parse —
`load_alerts` raises (`CorruptState`), `on_ready` does not start the
poller, and the on-disk state is left untouched, never silently
rewritten to an empty set.  (In memory the program keeps whatever
`load_alerts` left: the previous registry on a `json.load` failure, the
partially-converted raw snapshot on a timestamp failure.) -/
theorem c9_corrupt_state_startup :
    (∀ prev, load_alerts .missing prev = ([], none)) ∧
    (∀ prev, on_ready .missing prev = ([], true, .missing)) ∧
    (∀ prev, load_alerts .unparseable prev = (prev, some .corruptState)) ∧
    (∀ fs prev, (load_alerts fs prev).2 = some .corruptState →
        on_ready fs prev = ((load_alerts fs prev).1, false, fs)) := by
  refine ⟨fun prev => rfl, fun prev => rfl, fun prev => rfl, fun fs prev h => ?_⟩
  rcases hl : load_alerts fs prev with ⟨reg, e⟩
  rw [hl] at h
  simp only at h
  subst h
  simp [on_ready, hl]

def c9BadSnap : FileState :=
  .snapshot [("t", { vwap_level := 100, ticker := "TKN", current_price := 5, user := "u",
                     profile_pic := "p", last_alert_time := some "not-a-timestamp" })]

def c9MixedSnap : FileState :=
  .snapshot
    [("a", { vwap_level := 7, ticker := "A", current_price := 1, user := "u",
             profile_pic := "p", last_alert_time := some "2024-11-05 14:30:59+00:00" }),
     ("b", { vwap_level := 9, ticker := "B", current_price := 2, user := "v",
             profile_pic := "q", last_alert_time := some "garbage" })]

/-- Concrete instance of `c9_corrupt_state_startup`: a snapshot whose
timestamp string does not parse raises, the poller does not start, the
file is untouched, and the in-memory registry is the raw loaded record;
on a two-record snapshot failing at the second record, the first is left
converted and the second raw (the in-place partial conversion). -/
theorem c9_witness :
    load_alerts c9BadSnap [] =
      ([("t", { vwap_level := 100, ticker := "TKN", current_price := 5, user := "u",
                profile_pic := "p", last_alert_time := some (.raw "not-a-timestamp") })],
       some .corruptState) ∧
    on_ready c9BadSnap [] =
      ([("t", { vwap_level := 100, ticker := "TKN", current_price := 5, user := "u",
                profile_pic := "p", last_alert_time := some (.raw "not-a-timestamp") })],
       false, c9BadSnap) ∧
    load_alerts c9MixedSnap [] =
      ([("a", { vwap_level := 7, ticker := "A", current_price := 1, user := "u",
                profile_pic := "p", last_alert_time := some (.dt ⟨2024, 11, 5, 14, 30, 59, 0⟩) }),
        ("b", { vwap_level := 9, ticker := "B", current_price := 2, user := "v",
                profile_pic := "q", last_alert_time := some (.raw "garbage") })],
       some .corruptState) :=
  ⟨rfl, c9_corrupt_state_startup.2.2.2 c9BadSnap [] rfl, rfl⟩

/-! ## Claim C10 -/

/-- Claim C10: a per-record step whose fetch fails — non-200 response, or
a 200 payload with no `pairs` field — leaves the record completely
unchanged, calls no save, delivers nothing, and raises nothing. -/
theorem c10_failed_fetch_frame :
    (∀ env addr rec code, env.http addr = .err code →
        stepRecord env addr rec =
          { record := rec, saved := false, notified := false, err := none }) ∧
    (∀ env addr rec td, env.http addr = .ok td → td.pairs = none →
        stepRecord env addr rec =
          { record := rec, saved := false, notified := false, err := none }) := by
  constructor
  · intro env addr rec code h
    simp [stepRecord, fetch_token_pairs, h]
  · intro env addr rec td h1 h2
    simp [stepRecord, fetch_token_pairs, h1, h2]

def c10Env : TickEnv := { http := fun _ => .err 500, now := 5, notifyOk := true }

def c10EnvB : TickEnv := { http := fun _ => .ok { pairs := none }, now := 5, notifyOk := true }

def c10Rec : AlertRecord ℚ :=
  { vwap_level := 100, ticker := "T", current_price := 7, user := "u",
    profile_pic := "p", last_alert_time := none }

/-- Concrete instances of both parts of `c10_failed_fetch_frame`. -/
theorem c10_witness :
    c10Env.http "t" = .err 500 ∧
    stepRecord c10Env "t" c10Rec =
      { record := c10Rec, saved := false, notified := false, err := none } ∧
    stepRecord c10EnvB "t" c10Rec =
      { record := c10Rec, saved := false, notified := false, err := none } :=
  ⟨rfl,
   c10_failed_fetch_frame.1 c10Env "t" c10Rec 500 rfl,
   c10_failed_fetch_frame.2 c10EnvB "t" c10Rec _ rfl rfl⟩
